import Mathlib

/-
  Verification development for the synthetic image-processing pipeline
  (class Synthetic in synthetic.cc together with root_camera_processor.h).

  The definitions below are a shallow embedding of the source: enumerations,
  the per-stream control records, the processor state, and the member
  functions of class Synthetic are translated one-to-one.  Parts of the
  Processor base class (processor.h) are not among the sources; where such a
  part is needed it is modelled from the specification and marked as such.
-/

namespace Synthetic

/-- The mynteye Stream enumeration (types.h).  The eight concrete streams are
the ones registered by InitProcessors; LAST is the sentinel value that no
processor registers as a target stream. -/
inductive Stream where
  | LEFT
  | RIGHT
  | LEFT_RECTIFIED
  | RIGHT_RECTIFIED
  | DISPARITY
  | DISPARITY_NORMALIZED
  | POINTS
  | DEPTH
  | LAST
deriving DecidableEq, Repr, Fintype

/-- Synthetic::mode_t: MODE_NATIVE, MODE_SYNTHETIC, MODE_LAST (MODE_LAST is
the none / disabled mode). -/
inductive Mode where
  | MODE_NATIVE
  | MODE_SYNTHETIC
  | MODE_LAST
deriving DecidableEq, Repr, Fintype

open Stream Mode

/-- Synthetic::stream_control_t: stream, support mode, enabled mode, stream
callback.  The callback function is modelled by an identity drawn from Nat,
none standing for nullptr. -/
structure StreamControl where
  stream : Stream
  support_mode_ : Mode
  enabled_mode_ : Mode
  stream_callback : Option Nat
deriving DecidableEq, Repr

/-- ImgData metadata record: only the frame id is relevant to the pipeline
logic (the pairing latch compares img->frame_id). -/
structure ImgData where
  frame_id : Nat
deriving DecidableEq, Repr

/-- A cv::Mat is modelled by an abstract content tag; none is the empty
matrix. -/
abbrev Mat := Option Nat

/-- api::StreamData: img metadata, matrix, raw device frame, frame id.
Aggregate initialization with braces in the source fills the fields in this
order. -/
structure StreamData where
  img : Option ImgData
  frame : Mat
  frame_raw : Option Nat
  frame_id : Nat
deriving DecidableEq, Repr

/-- The brace-defaulted api::StreamData produced by a plain return in the
source: every member empty or zero. -/
def emptyStreamData : StreamData := { img := none, frame := none, frame_raw := none, frame_id := 0 }

/-- ObjMat: single-matrix payload (value, id, data). -/
structure ObjMat where
  value : Mat
  id : Nat
  data : Option ImgData
deriving DecidableEq, Repr

/-- ObjMat2: paired payload (first, first_id, first_data, second, second_id,
second_data). -/
structure ObjMat2 where
  first : Mat
  first_id : Nat
  first_data : Option ImgData
  second : Mat
  second_id : Nat
  second_data : Option ImgData
deriving DecidableEq, Repr

/-- Object: the base payload type; a stage output is either an ObjMat or an
ObjMat2. -/
inductive Object where
  | objMat : ObjMat → Object
  | objMat2 : ObjMat2 → Object
deriving DecidableEq, Repr

/-- Object::Cast to ObjMat (returns nullptr, here none, on the wrong
dynamic type). -/
def Object.castObjMat : Object → Option ObjMat
  | .objMat m => some m
  | _ => none

/-- Object::Cast to ObjMat2. -/
def Object.castObjMat2 : Object → Option ObjMat2
  | .objMat2 m => some m
  | _ => none

/-- obj_data_first: extract the first half of an ObjMat2 as StreamData
(frame_raw is set to nullptr by the source). -/
def obj_data_first (o : ObjMat2) : StreamData :=
  { img := o.first_data, frame := o.first, frame_raw := none, frame_id := o.first_id }

/-- obj_data_second: extract the second half of an ObjMat2 as StreamData. -/
def obj_data_second (o : ObjMat2) : StreamData :=
  { img := o.second_data, frame := o.second, frame_raw := none, frame_id := o.second_id }

/-- obj_data: an ObjMat as StreamData. -/
def obj_data (o : ObjMat) : StreamData :=
  { img := o.data, frame := o.value, frame_raw := none, frame_id := o.id }

/-- data_obj on two StreamData values: builds the paired ObjMat2
{first.frame, first.frame_id, first.img, second.frame, second.frame_id,
second.img}. -/
def data_obj2 (first second : StreamData) : ObjMat2 :=
  { first := first.frame, first_id := first.frame_id, first_data := first.img,
    second := second.frame, second_id := second.frame_id, second_data := second.img }

/-- A Processor node as far as class Synthetic reads and writes it:
target_streams_ (public in the source), the activation flag behind
IsActivated / Activate / Deactivate, and the most recent output behind
GetOutput.  Modelled from the spec: processor.h is not among the sources;
per spec section 4.1 a stage records an activation flag (started by
activate) and its latest produced output, and stages start out not yet
activated with no output produced. -/
structure Processor where
  target_streams_ : List StreamControl
  activated : Bool
  output : Option Object
deriving DecidableEq, Repr

/-- getStreamsSum: the number of registered target streams. -/
def Processor.getStreamsSum (p : Processor) : Nat := p.target_streams_.length

/-- The identities of the six processors pushed into processors_ by
InitProcessors, in push order: root, rectify, disparity,
disparity normalized, points, depth. -/
inductive ProcId where
  | root
  | rectify
  | disparity
  | dispnorm
  | points
  | depth
deriving DecidableEq, Repr, Fintype

/-- The pipeline state: the mutable contents of the six processors held in
processors_.  The graph topology itself is fixed at construction and carried
by the traversal functions below. -/
structure SynState where
  root_proc : Processor
  rectify_proc : Processor
  disparity_proc : Processor
  dispnorm_proc : Processor
  points_proc : Processor
  depth_proc : Processor
deriving DecidableEq, Repr

/-- Read one processor of the state. -/
def getProc (s : SynState) : ProcId → Processor
  | .root => s.root_proc
  | .rectify => s.rectify_proc
  | .disparity => s.disparity_proc
  | .dispnorm => s.dispnorm_proc
  | .points => s.points_proc
  | .depth => s.depth_proc

/-- Update one processor of the state. -/
def setProc (s : SynState) (pid : ProcId) (f : Processor → Processor) : SynState :=
  match pid with
  | .root => { s with root_proc := f s.root_proc }
  | .rectify => { s with rectify_proc := f s.rectify_proc }
  | .disparity => { s with disparity_proc := f s.disparity_proc }
  | .dispnorm => { s with dispnorm_proc := f s.dispnorm_proc }
  | .points => { s with points_proc := f s.points_proc }
  | .depth => { s with depth_proc := f s.depth_proc }

/-- Whether a processor lists the stream among its target streams (the inner
loop of the lookup helpers in the source). -/
def hasStream (p : Processor) (st : Stream) : Bool :=
  p.target_streams_.any (fun tc => tc.stream = st)

/-- The push order of processors_ in InitProcessors; every lookup in the
source scans the vector in this order. -/
def processorsOrder : List ProcId :=
  [.root, .rectify, .disparity, .dispnorm, .points, .depth]

/-- Synthetic::getProcessorWithStream: first processor in push order whose
target streams contain the stream.  CAUTION faithful to a source defect: on
no match the C++ function logs an error and falls off the end of a non-void
function (undefined behavior); the none result marks that path. -/
def getProcessorWithStream (s : SynState) (st : Stream) : Option ProcId :=
  if hasStream s.root_proc st then some .root
  else if hasStream s.rectify_proc st then some .rectify
  else if hasStream s.disparity_proc st then some .disparity
  else if hasStream s.dispnorm_proc st then some .dispnorm
  else if hasStream s.points_proc st then some .points
  else if hasStream s.depth_proc st then some .depth
  else none

/-- Synthetic::checkControlDateWithStream: does any processor target the
stream. -/
def checkControlDateWithStream (s : SynState) (st : Stream) : Bool :=
  hasStream s.root_proc st || hasStream s.rectify_proc st ||
  hasStream s.disparity_proc st || hasStream s.dispnorm_proc st ||
  hasStream s.points_proc st || hasStream s.depth_proc st

/-- First control record for the stream inside one processor (the inner loop
of getControlDateWithStream). -/
def findInProc (p : Processor) (st : Stream) : Option StreamControl :=
  p.target_streams_.find? (fun tc => tc.stream = st)

/-- The brace-defaulted stream_control_t returned on the
error path of getControlDateWithStream: enum members zero (first
enumerator), callback null. -/
def defaultStreamControl : StreamControl :=
  { stream := LEFT, support_mode_ := MODE_NATIVE, enabled_mode_ := MODE_NATIVE,
    stream_callback := none }

/-- Synthetic::getControlDateWithStream: first matching control record in
push order; the braces default on no match. -/
def getControlDateWithStream (s : SynState) (st : Stream) : StreamControl :=
  match getProcessorWithStream s st with
  | some pid => (findInProc (getProc s pid) st).getD defaultStreamControl
  | none => defaultStreamControl

/-- Synthetic::Supports. -/
def Supports (s : SynState) (st : Stream) : Bool :=
  checkControlDateWithStream s st

/-- Synthetic::GetStreamEnabledMode. -/
def GetStreamEnabledMode (s : SynState) (st : Stream) : Mode :=
  if checkControlDateWithStream s st then
    (getControlDateWithStream s st).enabled_mode_
  else MODE_LAST

/-- Synthetic::SupportsMode. -/
def SupportsMode (s : SynState) (st : Stream) : Mode :=
  if checkControlDateWithStream s st then
    (getControlDateWithStream s st).support_mode_
  else MODE_LAST

/-- Synthetic::HasStreamCallback: a registered stream with a non-null
callback. -/
def HasStreamCallback (s : SynState) (st : Stream) : Bool :=
  if checkControlDateWithStream s st then
    (getControlDateWithStream s st).stream_callback ≠ none
  else false

/-- Set the callback of the first control record for the stream within one
processor (the inner indexed loop of setControlDateCallbackWithStream). -/
def setCBInProc (l : List StreamControl) (st : Stream) (cb : Option Nat) : List StreamControl :=
  match l with
  | [] => []
  | tc :: rest =>
    if tc.stream = st then { tc with stream_callback := cb } :: rest
    else tc :: setCBInProc rest st cb

/-- Synthetic::setControlDateCallbackWithStream: scan processors in push
order, set the callback on the first matching record, return; error log and
no mutation when the stream is unknown. -/
def setControlDateCallbackWithStream (s : SynState) (st : Stream) (cb : Option Nat) : SynState :=
  match getProcessorWithStream s st with
  | some pid => setProc s pid (fun p =>
      { p with target_streams_ := setCBInProc p.target_streams_ st cb })
  | none => s

/-- Synthetic::SetStreamCallback: both the nullptr and the non-null branch
of the source store the given callback into a stream_control_t and delegate
to setControlDateCallbackWithStream. -/
def SetStreamCallback (s : SynState) (st : Stream) (cb : Option Nat) : SynState :=
  setControlDateCallbackWithStream s st cb

/-
  Enable / disable traversals.

  Modelled from the spec: iterate_processor_CtoP_before and
  iterate_processor_PtoC_before live in processor.h, which is not among the
  sources.  Per spec section 4.4 the enable traversal runs from the owning
  stage toward the root and the disable traversal from the stage toward its
  leaves.  The lists below are those traversals over the PINHOLE topology
  wired by InitProcessors (root -> rectify -> disparity ->
  {disparity normalized, points}, points -> depth).
-/

/-- The stage and its ancestors up to the root (enable traversal). -/
def iterateCtoP : ProcId → List ProcId
  | .root => [.root]
  | .rectify => [.rectify, .root]
  | .disparity => [.disparity, .rectify, .root]
  | .dispnorm => [.dispnorm, .disparity, .rectify, .root]
  | .points => [.points, .disparity, .rectify, .root]
  | .depth => [.depth, .points, .disparity, .rectify, .root]

/-- The stage and its descendants (disable traversal). -/
def iteratePtoC : ProcId → List ProcId
  | .root => [.root, .rectify, .disparity, .dispnorm, .points, .depth]
  | .rectify => [.rectify, .disparity, .dispnorm, .points, .depth]
  | .disparity => [.disparity, .dispnorm, .points, .depth]
  | .dispnorm => [.dispnorm]
  | .points => [.points, .depth]
  | .depth => [.depth]

/-- The loop body of the EnableStreamData lambda over one target list: every
record with enabled mode MODE_LAST fires the switch callback and, outside a
dry run, is flipped to MODE_SYNTHETIC while act_tag is incremented.  Returns
the new list and act_tag. -/
def enableTargets (try_tag : Bool) : List StreamControl → List StreamControl × Nat
  | [] => ([], 0)
  | tc :: rest =>
    let r := enableTargets try_tag rest
    if tc.enabled_mode_ = MODE_LAST ∧ ¬try_tag then
      ({ tc with enabled_mode_ := MODE_SYNTHETIC } :: r.1, r.2 + 1)
    else (tc :: r.1, r.2)

/-- The EnableStreamData lambda applied to one visited processor: flip the
targets, then Activate when act_tag is positive and the processor was not
activated. -/
def enableVisit (try_tag : Bool) (p : Processor) : Processor :=
  if (enableTargets try_tag p.target_streams_).2 > 0 ∧ ¬p.activated then
    { p with target_streams_ := (enableTargets try_tag p.target_streams_).1,
             activated := true }
  else { p with target_streams_ := (enableTargets try_tag p.target_streams_).1 }

/-- The loop body of the DisableStreamData lambda: every record with enabled
mode MODE_SYNTHETIC fires the callback and, outside a dry run, is flipped
back to MODE_LAST while act_tag is incremented. -/
def disableTargets (try_tag : Bool) : List StreamControl → List StreamControl × Nat
  | [] => ([], 0)
  | tc :: rest =>
    let r := disableTargets try_tag rest
    if tc.enabled_mode_ = MODE_SYNTHETIC ∧ ¬try_tag then
      ({ tc with enabled_mode_ := MODE_LAST } :: r.1, r.2 + 1)
    else (tc :: r.1, r.2)

/-- The DisableStreamData lambda applied to one visited processor: flip the
targets, then Deactivate when act_tag is positive and the processor was
activated. -/
def disableVisit (try_tag : Bool) (p : Processor) : Processor :=
  if (disableTargets try_tag p.target_streams_).2 > 0 ∧ p.activated then
    { p with target_streams_ := (disableTargets try_tag p.target_streams_).1,
             activated := false }
  else { p with target_streams_ := (disableTargets try_tag p.target_streams_).1 }

/-- One step of the enable traversal fold: apply the enable lambda to the
visited processor. -/
def enableFoldStep (try_tag : Bool) (acc : SynState) (q : ProcId) : SynState :=
  setProc acc q (enableVisit try_tag)

/-- Synthetic::EnableStreamData(stream, callback, try_tag): look up the
owning processor and apply the enable lambda along the child-to-parent
traversal.  The none case is the undefined-behavior path of
getProcessorWithStream (see there); it is modelled as leaving the state
unchanged. -/
def EnableStreamData (s : SynState) (st : Stream) (try_tag : Bool) : SynState :=
  match getProcessorWithStream s st with
  | some pid => (iterateCtoP pid).foldl (enableFoldStep try_tag) s
  | none => s

/-- One step of the disable traversal fold. -/
def disableFoldStep (try_tag : Bool) (acc : SynState) (q : ProcId) : SynState :=
  setProc acc q (disableVisit try_tag)

/-- Synthetic::DisableStreamData(stream, callback, try_tag): the mirror over
the parent-to-child traversal. -/
def DisableStreamData (s : SynState) (st : Stream) (try_tag : Bool) : SynState :=
  match getProcessorWithStream s st with
  | some pid => (iteratePtoC pid).foldl (disableFoldStep try_tag) s
  | none => s

/-
  Construction: InitProcessors and InitStreamSupports.
-/

/-- The addTargetStreams registrations of InitProcessors: each processor
starts with its listed streams; the chain streams start MODE_LAST /
MODE_LAST, LEFT and RIGHT start MODE_NATIVE / MODE_NATIVE; all callbacks
null. -/
def InitProcessors : SynState :=
  { root_proc :=
      { target_streams_ :=
          [ { stream := LEFT, support_mode_ := MODE_NATIVE, enabled_mode_ := MODE_NATIVE,
              stream_callback := none },
            { stream := RIGHT, support_mode_ := MODE_NATIVE, enabled_mode_ := MODE_NATIVE,
              stream_callback := none } ],
        activated := false, output := none },
    rectify_proc :=
      { target_streams_ :=
          [ { stream := LEFT_RECTIFIED, support_mode_ := MODE_LAST, enabled_mode_ := MODE_LAST,
              stream_callback := none },
            { stream := RIGHT_RECTIFIED, support_mode_ := MODE_LAST, enabled_mode_ := MODE_LAST,
              stream_callback := none } ],
        activated := false, output := none },
    disparity_proc :=
      { target_streams_ :=
          [ { stream := DISPARITY, support_mode_ := MODE_LAST, enabled_mode_ := MODE_LAST,
              stream_callback := none } ],
        activated := false, output := none },
    dispnorm_proc :=
      { target_streams_ :=
          [ { stream := DISPARITY_NORMALIZED, support_mode_ := MODE_LAST,
              enabled_mode_ := MODE_LAST, stream_callback := none } ],
        activated := false, output := none },
    points_proc :=
      { target_streams_ :=
          [ { stream := POINTS, support_mode_ := MODE_LAST, enabled_mode_ := MODE_LAST,
              stream_callback := none } ],
        activated := false, output := none },
    depth_proc :=
      { target_streams_ :=
          [ { stream := DEPTH, support_mode_ := MODE_LAST, enabled_mode_ := MODE_LAST,
              stream_callback := none } ],
        activated := false, output := none } }

/-- The stream_chain vector of InitStreamSupports. -/
def stream_chain : List Stream :=
  [LEFT_RECTIFIED, RIGHT_RECTIFIED, DISPARITY, DISPARITY_NORMALIZED, POINTS, DEPTH]

/-- The per-target update of the chain loop of InitStreamSupports: the
record of the chain stream gets support NATIVE plus enabled NATIVE when the
device supports it natively, otherwise support SYNTHETIC. -/
def initSupportsChainTc (dev : Stream → Bool) (st : Stream) (tc : StreamControl) :
    StreamControl :=
  if tc.stream = st then
    if dev st then
      { tc with support_mode_ := MODE_NATIVE, enabled_mode_ := MODE_NATIVE }
    else { tc with support_mode_ := MODE_SYNTHETIC }
  else tc

/-- One chain-stream iteration of InitStreamSupports: look up the owning
processor and update its matching records. -/
def initSupportsChainStep (dev : Stream → Bool) (acc : SynState) (st : Stream) : SynState :=
  match getProcessorWithStream acc st with
  | some pid => setProc acc pid (fun p =>
      { p with target_streams_ := p.target_streams_.map (initSupportsChainTc dev st) })
  | none => acc

/-- The first half of InitStreamSupports: the processor owning LEFT gets
support mode NATIVE on its LEFT and RIGHT records (two consecutive ifs in
the source, rendered as one map). -/
def initSupportsBase (s : SynState) : SynState :=
  match getProcessorWithStream s LEFT with
  | some pid => setProc s pid (fun p =>
      { p with target_streams_ := p.target_streams_.map (fun tc =>
          if tc.stream = LEFT ∨ tc.stream = RIGHT then
            { tc with support_mode_ := MODE_NATIVE }
          else tc) })
  | none => s

/-- Synthetic::InitStreamSupports, parameterized by the device support
predicate.  When the device supports both LEFT and RIGHT: first the LEFT and
RIGHT records of the root, then each chain stream in order. -/
def InitStreamSupports (dev : Stream → Bool) (s : SynState) : SynState :=
  if dev LEFT && dev RIGHT then
    stream_chain.foldl (initSupportsChainStep dev) (initSupportsBase s)
  else s

/-- The pipeline state right after the Synthetic constructor (InitProcessors
followed by InitStreamSupports) for a given device support predicate. -/
def initState (dev : Stream → Bool) : SynState :=
  InitStreamSupports dev InitProcessors

/-
  GetStreamData.
-/

/-- The target scan of the sum == 2 branch of GetStreamData: walk the target
list with counter num; at the record matching the requested stream return
obj_data_first when num == 1 and obj_data_second otherwise.  (This is
the half selection exactly as in the source: the stream registered second
gets the first half and the stream registered first gets the second half.) -/
def pickHalf (l : List StreamControl) (st : Stream) (o : ObjMat2) (num : Nat) : Option StreamData :=
  match l with
  | [] => none
  | tc :: rest =>
    if tc.stream = st then
      if num = 1 then some (obj_data_first o) else some (obj_data_second o)
    else pickHalf rest st o (num + 1)

/-- Synthetic::GetStreamData(stream).  The device collaborator is a
parameter; the function-scope static ObjMat2 cache of the sum == 2 branch is
threaded explicitly as staticOut, and the result carries the possibly
updated cache.  NATIVE delegates to the device; SYNTHETIC reads the owning
processor output (GetOutput); otherwise the empty StreamData is returned. -/
def GetStreamData (dev : Stream → StreamData) (s : SynState) (staticOut : Option ObjMat2)
    (st : Stream) : StreamData × Option ObjMat2 :=
  let mode := GetStreamEnabledMode s st
  if mode = MODE_NATIVE then (dev st, staticOut)
  else if mode = MODE_SYNTHETIC then
    match getProcessorWithStream s st with
    | none => (emptyStreamData, staticOut)
    | some pid =>
      let p := getProc s pid
      let out := p.output
      if p.getStreamsSum = 1 then
        match out with
        | some o =>
          match o.castObjMat with
          | some m => (obj_data m, staticOut)
          | none => (emptyStreamData, staticOut)
        | none => (emptyStreamData, staticOut)
      else if p.getStreamsSum = 2 then
        let staticOut' := match out with
          | some o => o.castObjMat2
          | none => staticOut
        match staticOut' with
        | some o2 =>
          match pickHalf p.target_streams_ st o2 0 with
          | some d => (d, staticOut')
          | none => (emptyStreamData, staticOut')
        | none => (emptyStreamData, staticOut')
      else (emptyStreamData, staticOut)
  else (emptyStreamData, staticOut)

/-
  The pairing latch: the LEFT / RIGHT branch of Synthetic::ProcessNativeStream.
-/

/-- The two function-scope static slots left_data and right_data of the
LEFT / RIGHT branch. -/
structure LatchState where
  left_data : StreamData
  right_data : StreamData
deriving DecidableEq, Repr

/-- The latch slots at process start: both brace-defaulted StreamData. -/
def initLatch : LatchState := { left_data := emptyStreamData, right_data := emptyStreamData }

/-- The slot update of the branch: a LEFT arrival overwrites left_data, a
RIGHT arrival overwrites right_data, any other stream touches nothing. -/
def latchUpdate (st : LatchState) (stream : Stream) (data : StreamData) : LatchState :=
  if stream = LEFT then { st with left_data := data }
  else if stream = RIGHT then { st with right_data := data }
  else st

/-- The emit check of the branch: when both slots hold img metadata and the
two img frame ids are equal, the pair data_obj(left_data, right_data) is
built and handed to Processor::Process of the rectify processor
(find_processor of the rectify kind); otherwise nothing is emitted. -/
def latchEmit (st : LatchState) : Option ObjMat2 :=
  match st.left_data.img, st.right_data.img with
  | some li, some ri =>
    if li.frame_id = ri.frame_id then some (data_obj2 st.left_data st.right_data)
    else none
  | _, _ => none

/-- The LEFT / RIGHT branch of Synthetic::ProcessNativeStream as one step:
update the arriving slot, then run the emit check on the updated slots.
Returns the new slots and the pair emitted to the rectify stage, if any. -/
def ProcessNativeStreamLR (st : LatchState) (stream : Stream) (data : StreamData) :
    LatchState × Option ObjMat2 :=
  let st' := latchUpdate st stream data
  (st', latchEmit st')

/-- Run the latch over a sequence of native arrivals, collecting every
emitted pair in order. -/
def runLatch (st : LatchState) : List (Stream × StreamData) → LatchState × List ObjMat2
  | [] => (st, [])
  | (stream, data) :: rest =>
    let (st', emitted) := ProcessNativeStreamLR st stream data
    let (stFin, pairs) := runLatch st' rest
    (stFin, (match emitted with | some o => [o] | none => []) ++ pairs)

/-
  Plugin hooks and the per-stage process callbacks.
-/

/-- The plugin override surface: one handler per stage, each taking the
input payload and answering whether it fully produced the output. -/
structure Plugin where
  onRectify : Object → Bool
  onDisparity : Object → Bool
  onDisparityNormalized : Object → Bool
  onPoints : Object → Bool
  onDepth : Object → Bool

/-- Synthetic::OnRectifyProcess: plugin first; otherwise skip the built-in
kernel exactly when LEFT_RECTIFIED is not enabled SYNTHETIC.  The source
checks only LEFT_RECTIFIED; the RIGHT_RECTIFIED check is commented out
there. -/
def OnRectifyProcess (plugin : Option Plugin) (s : SynState) (inp : Object) : Bool :=
  (match plugin with
   | some pl => pl.onRectify inp
   | none => false) ||
  decide (GetStreamEnabledMode s LEFT_RECTIFIED ≠ MODE_SYNTHETIC)

/-- Synthetic::OnDisparityProcess. -/
def OnDisparityProcess (plugin : Option Plugin) (s : SynState) (inp : Object) : Bool :=
  (match plugin with
   | some pl => pl.onDisparity inp
   | none => false) ||
  decide (GetStreamEnabledMode s DISPARITY ≠ MODE_SYNTHETIC)

/-- Synthetic::OnDisparityNormalizedProcess. -/
def OnDisparityNormalizedProcess (plugin : Option Plugin) (s : SynState) (inp : Object) : Bool :=
  (match plugin with
   | some pl => pl.onDisparityNormalized inp
   | none => false) ||
  decide (GetStreamEnabledMode s DISPARITY_NORMALIZED ≠ MODE_SYNTHETIC)

/-- Synthetic::OnPointsProcess. -/
def OnPointsProcess (plugin : Option Plugin) (s : SynState) (inp : Object) : Bool :=
  (match plugin with
   | some pl => pl.onPoints inp
   | none => false) ||
  decide (GetStreamEnabledMode s POINTS ≠ MODE_SYNTHETIC)

/-- Synthetic::OnDepthProcess. -/
def OnDepthProcess (plugin : Option Plugin) (s : SynState) (inp : Object) : Bool :=
  (match plugin with
   | some pl => pl.onDepth inp
   | none => false) ||
  decide (GetStreamEnabledMode s DEPTH ≠ MODE_SYNTHETIC)

/-- The process hook installed on each stage by InitProcessors (the
SetProcessCallback bindings); the root processor receives no Synthetic
hook. -/
def processHookOf (pid : ProcId) (plugin : Option Plugin) (s : SynState) (inp : Object) : Bool :=
  match pid with
  | .root => false
  | .rectify => OnRectifyProcess plugin s inp
  | .disparity => OnDisparityProcess plugin s inp
  | .dispnorm => OnDisparityNormalizedProcess plugin s inp
  | .points => OnPointsProcess plugin s inp
  | .depth => OnDepthProcess plugin s inp

/-- The per-stage handler a plugin contributes to each hook. -/
def pluginHandlerOf (pl : Plugin) (pid : ProcId) : Object → Bool :=
  match pid with
  | .root => fun _ => false
  | .rectify => pl.onRectify
  | .disparity => pl.onDisparity
  | .dispnorm => pl.onDisparityNormalized
  | .points => pl.onPoints
  | .depth => pl.onDepth

/-- The single stream whose enabled mode each hook consults (the source
checks exactly one stream per hook; for the paired rectify stage it is
LEFT_RECTIFIED). -/
def hookStreamOf : ProcId → Stream
  | .root => LEFT
  | .rectify => LEFT_RECTIFIED
  | .disparity => DISPARITY
  | .dispnorm => DISPARITY_NORMALIZED
  | .points => POINTS
  | .depth => DEPTH

/-- What one stage execution does with the hook verdict.  Modelled from the
spec: the Processor run loop (processor.h, not among the sources) calls the
process hook and, when it returns true, takes the output as is, skipping the
built-in compute kernel; on a produced output the post-process hook fires
(spec section 4.1, steps 3 and 4). -/
structure StageRun where
  computeInvoked : Bool
  postProcessFired : Bool
deriving DecidableEq, Repr

/-- One stage execution given the hook verdict. -/
def runStage (hookResult : Bool) : StageRun :=
  { computeInvoked := !hookResult, postProcessFired := true }

/-
  Operation sequences over the registry (for the reachability claims).
-/

/-- One public mutating registry call: a non-dry-run EnableStreamData or
DisableStreamData. -/
inductive Op where
  | enable : Stream → Op
  | disable : Stream → Op
deriving DecidableEq, Repr

/-- Apply one call. -/
def applyOp (s : SynState) : Op → SynState
  | .enable st => EnableStreamData s st false
  | .disable st => DisableStreamData s st false

/-- Run a call sequence from a state. -/
def runOps (s : SynState) (ops : List Op) : SynState :=
  ops.foldl applyOp s

/-- The notification order of Synthetic::OnRectifyPostProcess: the first
half of the paired output is delivered as LEFT_RECTIFIED and the second half
as RIGHT_RECTIFIED, to the stream listener and to any stream callbacks. -/
def OnRectifyPostProcessNotifications (o : ObjMat2) : List (Stream × StreamData) :=
  [(LEFT_RECTIFIED, obj_data_first o), (RIGHT_RECTIFIED, obj_data_second o)]

/-
  Concrete devices, frames and states used by the witnesses and
  counterexamples.
-/

/-- A device producing only the raw LEFT and RIGHT streams natively (the
common hardware case of the spec scenarios). -/
def devLR : Stream → Bool
  | LEFT => true
  | RIGHT => true
  | _ => false

/-- A device also producing LEFT_RECTIFIED natively, so that the rectify
stage mixes a NATIVE-enabled and a SYNTHETIC-capable target. -/
def devMix : Stream → Bool
  | LEFT => true
  | RIGHT => true
  | LEFT_RECTIFIED => true
  | _ => false

/-- A native frame with the given frame id in both the img metadata and the
record, carrying a matrix tagged by the same id. -/
def natFrame (i : Nat) : StreamData :=
  { img := some { frame_id := i }, frame := some i, frame_raw := none, frame_id := i }

/-- A paired rectify output whose two halves are distinct (left matrix
tagged 10, right matrix tagged 20, both frame id 7). -/
def o_pair : ObjMat2 :=
  { first := some 10, first_id := 7, first_data := some { frame_id := 7 },
    second := some 20, second_id := 7, second_data := some { frame_id := 7 } }

/-- The pipeline on devLR after EnableStreamData(LEFT_RECTIFIED) once the
rectify stage has produced the paired output o_pair (the stored output of a
stage after a successful process run). -/
def sRect : SynState :=
  let s := EnableStreamData (initState devLR) LEFT_RECTIFIED false
  { s with rectify_proc := { s.rectify_proc with output := some (Object.objMat2 o_pair) } }

/-
  An exact characterization of the states reachable from initState devLR by
  enable and disable calls: the root keeps its two NATIVE records and stays
  as constructed, and each chain processor is either fully on (all targets
  MODE_SYNTHETIC, activated) or fully off (all targets MODE_LAST, not
  activated).  One Bool per chain processor selects its side.
-/

/-- Enabled mode of a chain target selected by its on bit. -/
def onOff (b : Bool) : Mode := if b then MODE_SYNTHETIC else MODE_LAST

/-- The reachable-state family for devLR: bits for rectify, disparity,
disparity normalized, points, depth. -/
def mkState (brect bdisp bnorm bpts bdep : Bool) : SynState :=
  { root_proc :=
      { target_streams_ :=
          [ { stream := LEFT, support_mode_ := MODE_NATIVE, enabled_mode_ := MODE_NATIVE,
              stream_callback := none },
            { stream := RIGHT, support_mode_ := MODE_NATIVE, enabled_mode_ := MODE_NATIVE,
              stream_callback := none } ],
        activated := false, output := none },
    rectify_proc :=
      { target_streams_ :=
          [ { stream := LEFT_RECTIFIED, support_mode_ := MODE_SYNTHETIC,
              enabled_mode_ := onOff brect, stream_callback := none },
            { stream := RIGHT_RECTIFIED, support_mode_ := MODE_SYNTHETIC,
              enabled_mode_ := onOff brect, stream_callback := none } ],
        activated := brect, output := none },
    disparity_proc :=
      { target_streams_ :=
          [ { stream := DISPARITY, support_mode_ := MODE_SYNTHETIC,
              enabled_mode_ := onOff bdisp, stream_callback := none } ],
        activated := bdisp, output := none },
    dispnorm_proc :=
      { target_streams_ :=
          [ { stream := DISPARITY_NORMALIZED, support_mode_ := MODE_SYNTHETIC,
              enabled_mode_ := onOff bnorm, stream_callback := none } ],
        activated := bnorm, output := none },
    points_proc :=
      { target_streams_ :=
          [ { stream := POINTS, support_mode_ := MODE_SYNTHETIC,
              enabled_mode_ := onOff bpts, stream_callback := none } ],
        activated := bpts, output := none },
    depth_proc :=
      { target_streams_ :=
          [ { stream := DEPTH, support_mode_ := MODE_SYNTHETIC,
              enabled_mode_ := onOff bdep, stream_callback := none } ],
        activated := bdep, output := none } }

/-- Streams whose enabling turns the rectify stage on. -/
def enRect : Stream → Bool
  | LEFT | RIGHT | LAST => false
  | _ => true

/-- Streams whose enabling turns the disparity stage on. -/
def enDisp : Stream → Bool
  | DISPARITY | DISPARITY_NORMALIZED | POINTS | DEPTH => true
  | _ => false

/-- Streams whose enabling turns the disparity normalized stage on. -/
def enNorm : Stream → Bool
  | DISPARITY_NORMALIZED => true
  | _ => false

/-- Streams whose enabling turns the points stage on. -/
def enPts : Stream → Bool
  | POINTS | DEPTH => true
  | _ => false

/-- Streams whose enabling turns the depth stage on. -/
def enDep : Stream → Bool
  | DEPTH => true
  | _ => false

/-- Streams whose disabling turns the rectify stage off. -/
def dsRect : Stream → Bool
  | LEFT | RIGHT | LEFT_RECTIFIED | RIGHT_RECTIFIED => true
  | _ => false

/-- Streams whose disabling turns the disparity stage off. -/
def dsDisp : Stream → Bool
  | LEFT | RIGHT | LEFT_RECTIFIED | RIGHT_RECTIFIED | DISPARITY => true
  | _ => false

/-- Streams whose disabling turns the disparity normalized stage off. -/
def dsNorm : Stream → Bool
  | LEFT | RIGHT | LEFT_RECTIFIED | RIGHT_RECTIFIED | DISPARITY
  | DISPARITY_NORMALIZED => true
  | _ => false

/-- Streams whose disabling turns the points stage off. -/
def dsPts : Stream → Bool
  | LEFT | RIGHT | LEFT_RECTIFIED | RIGHT_RECTIFIED | DISPARITY | POINTS => true
  | _ => false

/-- Streams whose disabling turns the depth stage off. -/
def dsDep : Stream → Bool
  | LEFT | RIGHT | LEFT_RECTIFIED | RIGHT_RECTIFIED | DISPARITY | POINTS
  | DEPTH => true
  | _ => false

/-- A device collaborator that never returns data. -/
def devEmpty : Stream → StreamData := fun _ => emptyStreamData

/-- The devLR pipeline right after EnableStreamData(LEFT_RECTIFIED), before
the rectify stage has produced anything. -/
def sEnabledRect : SynState := EnableStreamData (initState devLR) LEFT_RECTIFIED false

/-- The devMix pipeline after EnableStreamData(RIGHT_RECTIFIED) followed by
DisableStreamData(RIGHT_RECTIFIED). -/
def sMixDisabled : SynState :=
  DisableStreamData (EnableStreamData (initState devMix) RIGHT_RECTIFIED false)
    RIGHT_RECTIFIED false

/-- A plugin whose every handler claims to have produced the output. -/
def plAlways : Plugin :=
  { onRectify := fun _ => true, onDisparity := fun _ => true,
    onDisparityNormalized := fun _ => true, onPoints := fun _ => true,
    onDepth := fun _ => true }

/-- A minimal input payload. -/
def obj0 : Object := Object.objMat { value := none, id := 0, data := none }

/-- A target whose support mode NATIVE forces enabled mode NATIVE. -/
def tcNativeOK (tc : StreamControl) : Bool :=
  decide (tc.support_mode_ = MODE_NATIVE → tc.enabled_mode_ = MODE_NATIVE)

/-- All targets of a processor pass tcNativeOK. -/
def procNativeOK (p : Processor) : Bool :=
  p.target_streams_.all tcNativeOK

/-- The native-support invariant over the whole pipeline state. -/
def natInv (s : SynState) : Bool :=
  procNativeOK s.root_proc && procNativeOK s.rectify_proc &&
  procNativeOK s.disparity_proc && procNativeOK s.dispnorm_proc &&
  procNativeOK s.points_proc && procNativeOK s.depth_proc

end Synthetic




/-
  Theorems.
-/

namespace Synthetic

open Stream Mode

/-- The emit check of the pairing latch fires exactly when both slots hold
img metadata with equal frame ids. -/
theorem latchEmit_isSome (u : LatchState) :
    (latchEmit u).isSome = true ↔
      ∃ li ri, u.left_data.img = some li ∧ u.right_data.img = some ri ∧
        li.frame_id = ri.frame_id := by
  unfold latchEmit
  cases hL : u.left_data.img with
  | none => simp
  | some li =>
    cases hR : u.right_data.img with
    | none => simp
    | some ri =>
      by_cases h : li.frame_id = ri.frame_id <;> simp [h]

/-- C3: on every native LEFT / RIGHT arrival the latch overwrites that eye
slot and emits a pair to the rectify stage exactly when both updated slots
hold data with equal frame ids; the run LEFT 42, LEFT 43, RIGHT 43 emits
exactly one pair, with id 43, and the id 42 frame is silently discarded. -/
theorem C3_pairing_latch_emits_on_equal_ids :
    (∀ (st : LatchState) (stream : Stream) (data : StreamData),
        ((ProcessNativeStreamLR st stream data).2.isSome = true ↔
          ∃ li ri, (latchUpdate st stream data).left_data.img = some li ∧
            (latchUpdate st stream data).right_data.img = some ri ∧
            li.frame_id = ri.frame_id)) ∧
    (∀ (st : LatchState) (d : StreamData),
        (latchUpdate st LEFT d).left_data = d ∧
        (latchUpdate st LEFT d).right_data = st.right_data ∧
        (latchUpdate st RIGHT d).right_data = d ∧
        (latchUpdate st RIGHT d).left_data = st.left_data) ∧
    (runLatch initLatch
        [(LEFT, natFrame 42), (LEFT, natFrame 43), (RIGHT, natFrame 43)]).2 =
      [data_obj2 (natFrame 43) (natFrame 43)] := by
  refine ⟨?_, ?_, by decide⟩
  · intro st stream data
    exact latchEmit_isSome (latchUpdate st stream data)
  · intro st d
    refine ⟨?_, ?_, ?_, ?_⟩ <;> simp [latchUpdate]

/-- C1: evaluation of GetStreamData at the failing input.  With the rectify
stage enabled SYNTHETIC and holding the paired output o_pair, the query for
LEFT_RECTIFIED returns the second (right) half and the query for
RIGHT_RECTIFIED returns the first (left) half, the opposite of the halves
the OnRectifyPostProcess notifications attach to those streams. -/
theorem C1_left_rectified_returns_second_half :
    (GetStreamData devEmpty sRect none LEFT_RECTIFIED).1 = obj_data_second o_pair ∧
    (GetStreamData devEmpty sRect none RIGHT_RECTIFIED).1 = obj_data_first o_pair ∧
    obj_data_second o_pair ≠ obj_data_first o_pair ∧
    OnRectifyPostProcessNotifications o_pair =
      [(LEFT_RECTIFIED, obj_data_first o_pair),
       (RIGHT_RECTIFIED, obj_data_second o_pair)] := by
  decide

/-- C7: evaluation at the failing input.  The sentinel stream LAST is
registered by no processor of the constructed pipeline: the processor
lookup takes its error path (in the C++ source that path falls off the end
of a non-void function), GetStreamData returns the empty StreamData,
HasStreamCallback and Supports return false. -/
theorem C7_unknown_stream_behavior :
    getProcessorWithStream (initState devLR) LAST = none ∧
    (GetStreamData devEmpty (initState devLR) none LAST).1 = emptyStreamData ∧
    HasStreamCallback (initState devLR) LAST = false ∧
    Supports (initState devLR) LAST = false := by
  decide

/-- C6: a SYNTHETIC stream owned by a paired (two-target) stage that has not
produced any output since process start (no stored stage output and an
empty static cache) yields the empty StreamData. -/
theorem C6_paired_not_ready_returns_empty
    (dev : Stream → StreamData) (s : SynState) (st : Stream) (pid : ProcId)
    (hmode : GetStreamEnabledMode s st = MODE_SYNTHETIC)
    (hlook : getProcessorWithStream s st = some pid)
    (hsum : (getProc s pid).getStreamsSum = 2)
    (hout : (getProc s pid).output = none) :
    (GetStreamData dev s none st).1 = emptyStreamData := by
  simp [GetStreamData, hmode, hlook, hsum, hout]

/-- C6 witness: the devLR pipeline right after enabling LEFT_RECTIFIED
satisfies every hypothesis and the query returns empty. -/
theorem C6_witness :
    GetStreamEnabledMode sEnabledRect LEFT_RECTIFIED = MODE_SYNTHETIC ∧
    getProcessorWithStream sEnabledRect LEFT_RECTIFIED = some ProcId.rectify ∧
    (getProc sEnabledRect ProcId.rectify).getStreamsSum = 2 ∧
    (getProc sEnabledRect ProcId.rectify).output = none ∧
    (GetStreamData devEmpty sEnabledRect none LEFT_RECTIFIED).1 = emptyStreamData :=
  ⟨by decide, by decide, by decide, by decide,
    C6_paired_not_ready_returns_empty devEmpty sEnabledRect LEFT_RECTIFIED ProcId.rectify
      (by decide) (by decide) (by decide) (by decide)⟩

end Synthetic

namespace Synthetic

open Stream Mode

/-- C4: each per-stage process hook reports the output as already satisfied
exactly when the plugin is set and its per-stage handler accepts, or the
designated stream of that stage has enabled mode other than SYNTHETIC (the
designated stream of the paired rectify stage is LEFT_RECTIFIED); and an
accepting plugin handler makes the stage run skip the built-in kernel while
the post-process hook still fires. -/
theorem C4_process_hook_skip (plugin : Option Plugin) (s : SynState) (inp : Object)
    (pid : ProcId) (hpid : pid ≠ ProcId.root) :
    (processHookOf pid plugin s inp = true ↔
      ((∃ pl, plugin = some pl ∧ pluginHandlerOf pl pid inp = true) ∨
        GetStreamEnabledMode s (hookStreamOf pid) ≠ MODE_SYNTHETIC)) ∧
    (∀ pl, plugin = some pl → pluginHandlerOf pl pid inp = true →
      (runStage (processHookOf pid plugin s inp)).computeInvoked = false ∧
      (runStage (processHookOf pid plugin s inp)).postProcessFired = true) := by
  cases pid with
  | root => exact absurd rfl hpid
  | rectify =>
    cases plugin <;>
      simp [processHookOf, OnRectifyProcess, pluginHandlerOf, hookStreamOf, runStage] <;>
      (intro h1 h2; simp [h1] at h2)
  | disparity =>
    cases plugin <;>
      simp [processHookOf, OnDisparityProcess, pluginHandlerOf, hookStreamOf, runStage] <;>
      (intro h1 h2; simp [h1] at h2)
  | dispnorm =>
    cases plugin <;>
      simp [processHookOf, OnDisparityNormalizedProcess, pluginHandlerOf, hookStreamOf,
        runStage] <;>
      (intro h1 h2; simp [h1] at h2)
  | points =>
    cases plugin <;>
      simp [processHookOf, OnPointsProcess, pluginHandlerOf, hookStreamOf, runStage] <;>
      (intro h1 h2; simp [h1] at h2)
  | depth =>
    cases plugin <;>
      simp [processHookOf, OnDepthProcess, pluginHandlerOf, hookStreamOf, runStage] <;>
      (intro h1 h2; simp [h1] at h2)

/-- C4 witness: the disparity stage with an always-accepting plugin on the
freshly constructed devLR pipeline. -/
theorem C4_witness :
    ProcId.disparity ≠ ProcId.root ∧
    ((processHookOf ProcId.disparity (some plAlways) (initState devLR) obj0 = true ↔
      ((∃ pl, some plAlways = some pl ∧ pluginHandlerOf pl ProcId.disparity obj0 = true) ∨
        GetStreamEnabledMode (initState devLR) (hookStreamOf ProcId.disparity) ≠
          MODE_SYNTHETIC)) ∧
    (∀ pl, some plAlways = some pl → pluginHandlerOf pl ProcId.disparity obj0 = true →
      (runStage (processHookOf ProcId.disparity (some plAlways) (initState devLR) obj0)).computeInvoked = false ∧
      (runStage (processHookOf ProcId.disparity (some plAlways) (initState devLR) obj0)).postProcessFired = true)) :=
  ⟨by decide,
    C4_process_hook_skip (some plAlways) (initState devLR) obj0 ProcId.disparity
      (by decide)⟩

/-- C10: when no plugin is set or the rectify handler of the plugin rejects
this input, the rectify stage invokes its built-in kernel exactly when
LEFT_RECTIFIED is enabled SYNTHETIC, and the hook verdict depends on the
state only through the enabled mode of LEFT_RECTIFIED, never through
RIGHT_RECTIFIED. -/
theorem C10_rectify_hook_checks_left_only (plugin : Option Plugin) (s : SynState)
    (inp : Object)
    (h : plugin = none ∨ ∃ pl, plugin = some pl ∧ pl.onRectify inp = false) :
    ((runStage (OnRectifyProcess plugin s inp)).computeInvoked = true ↔
      GetStreamEnabledMode s LEFT_RECTIFIED = MODE_SYNTHETIC) ∧
    (∀ s2 : SynState,
        GetStreamEnabledMode s2 LEFT_RECTIFIED = GetStreamEnabledMode s LEFT_RECTIFIED →
        OnRectifyProcess plugin s2 inp = OnRectifyProcess plugin s inp) := by
  constructor
  · obtain rfl | ⟨pl, rfl, hpl⟩ := h
    · by_cases hm : GetStreamEnabledMode s LEFT_RECTIFIED = MODE_SYNTHETIC <;>
        simp [runStage, OnRectifyProcess, hm]
    · by_cases hm : GetStreamEnabledMode s LEFT_RECTIFIED = MODE_SYNTHETIC <;>
        simp [runStage, OnRectifyProcess, hpl, hm]
  · intro s2 h2
    obtain rfl | ⟨pl, rfl, hpl⟩ := h
    · simp [OnRectifyProcess, h2]
    · simp [OnRectifyProcess, h2]

/-- C10 witness: no plugin, on the devLR pipeline with LEFT_RECTIFIED
enabled SYNTHETIC. -/
theorem C10_witness :
    ((none : Option Plugin) = none ∨
      ∃ pl, (none : Option Plugin) = some pl ∧ pl.onRectify obj0 = false) ∧
    (((runStage (OnRectifyProcess none sEnabledRect obj0)).computeInvoked = true ↔
      GetStreamEnabledMode sEnabledRect LEFT_RECTIFIED = MODE_SYNTHETIC) ∧
    (∀ s2 : SynState,
        GetStreamEnabledMode s2 LEFT_RECTIFIED =
          GetStreamEnabledMode sEnabledRect LEFT_RECTIFIED →
        OnRectifyProcess none s2 obj0 = OnRectifyProcess none sEnabledRect obj0)) :=
  ⟨Or.inl rfl,
    C10_rectify_hook_checks_left_only none sEnabledRect obj0 (Or.inl rfl)⟩

end Synthetic

namespace Synthetic

open Stream Mode

/-- The devLR constructor state is the all-off member of the reachable
family. -/
theorem initState_devLR_eq : initState devLR = mkState false false false false false := by
  decide

/-- One EnableStreamData call maps the reachable family to itself, turning
on the bits of the owning stage and its ancestors. -/
theorem enable_mkState : ∀ (b1 b2 b3 b4 b5 : Bool) (st : Stream),
    EnableStreamData (mkState b1 b2 b3 b4 b5) st false =
      mkState (b1 || enRect st) (b2 || enDisp st) (b3 || enNorm st)
        (b4 || enPts st) (b5 || enDep st) := by
  decide

/-- One DisableStreamData call maps the reachable family to itself, turning
off the bits of the owning stage and its descendants. -/
theorem disable_mkState : ∀ (b1 b2 b3 b4 b5 : Bool) (st : Stream),
    DisableStreamData (mkState b1 b2 b3 b4 b5) st false =
      mkState (b1 && !dsRect st) (b2 && !dsDisp st) (b3 && !dsNorm st)
        (b4 && !dsPts st) (b5 && !dsDep st) := by
  decide

/-- Any call sequence keeps the devLR pipeline inside the reachable
family. -/
theorem runOps_mkState (ops : List Op) :
    ∀ b1 b2 b3 b4 b5 : Bool, ∃ c1 c2 c3 c4 c5 : Bool,
      runOps (mkState b1 b2 b3 b4 b5) ops = mkState c1 c2 c3 c4 c5 := by
  induction ops with
  | nil => intro b1 b2 b3 b4 b5; exact ⟨b1, b2, b3, b4, b5, rfl⟩
  | cons op rest ih =>
    intro b1 b2 b3 b4 b5
    cases op with
    | enable st =>
      have h := enable_mkState b1 b2 b3 b4 b5 st
      have : runOps (mkState b1 b2 b3 b4 b5) (Op.enable st :: rest) =
          runOps (EnableStreamData (mkState b1 b2 b3 b4 b5) st false) rest := rfl
      rw [this, h]
      exact ih _ _ _ _ _
    | disable st =>
      have h := disable_mkState b1 b2 b3 b4 b5 st
      have : runOps (mkState b1 b2 b3 b4 b5) (Op.disable st :: rest) =
          runOps (DisableStreamData (mkState b1 b2 b3 b4 b5) st false) rest := rfl
      rw [this, h]
      exact ih _ _ _ _ _

/-- Inside the reachable family, every non-root stage is activated exactly
when one of its targets is enabled. -/
theorem mkState_activation_iff : ∀ (b1 b2 b3 b4 b5 : Bool) (pid : ProcId),
    pid ≠ ProcId.root →
    ((getProc (mkState b1 b2 b3 b4 b5) pid).activated = true ↔
      ∃ tc ∈ (getProc (mkState b1 b2 b3 b4 b5) pid).target_streams_,
        tc.enabled_mode_ ≠ MODE_LAST) := by
  decide

/-- C2 counterexample: on a device that natively produces LEFT, RIGHT and
LEFT_RECTIFIED, the state reached by EnableStreamData(RIGHT_RECTIFIED)
followed by DisableStreamData(RIGHT_RECTIFIED) has the rectify stage
deactivated although its LEFT_RECTIFIED target is still enabled (NATIVE):
the claimed activation iff fails, and the disable call deactivated a stage
that still had an enabled target. -/
theorem C2_counterexample :
    (getProc sMixDisabled ProcId.rectify).activated = false ∧
    ∃ tc ∈ (getProc sMixDisabled ProcId.rectify).target_streams_,
      tc.enabled_mode_ ≠ MODE_LAST := by
  decide

/-- C2 amended: on a device supporting only LEFT and RIGHT natively, in
every state reachable by EnableStreamData and DisableStreamData calls every
stage other than the root is activated exactly when at least one of its
target streams has enabled mode other than NONE; the root stage itself is
never activated by these calls, and with mixed native support a disable can
deactivate a stage that still has a NATIVE-enabled target (see the
counterexample). -/
theorem C2_amended_activation_iff (ops : List Op) (pid : ProcId)
    (hpid : pid ≠ ProcId.root) :
    ((getProc (runOps (initState devLR) ops) pid).activated = true ↔
      ∃ tc ∈ (getProc (runOps (initState devLR) ops) pid).target_streams_,
        tc.enabled_mode_ ≠ MODE_LAST) := by
  rw [initState_devLR_eq]
  obtain ⟨c1, c2, c3, c4, c5, hc⟩ := runOps_mkState ops false false false false false
  rw [hc]
  exact mkState_activation_iff c1 c2 c3 c4 c5 pid hpid

/-- C2 amended witness: after enabling DEPTH, the depth stage is activated
and its target enabled. -/
theorem C2_amended_witness :
    ProcId.depth ≠ ProcId.root ∧
    ((getProc (runOps (initState devLR) [Op.enable DEPTH]) ProcId.depth).activated = true ↔
      ∃ tc ∈ (getProc (runOps (initState devLR) [Op.enable DEPTH])
          ProcId.depth).target_streams_, tc.enabled_mode_ ≠ MODE_LAST) :=
  ⟨by decide, C2_amended_activation_iff [Op.enable DEPTH] ProcId.depth (by decide)⟩

end Synthetic

namespace Synthetic

open Stream Mode

/-- The enable loop keeps every target passing tcNativeOK: it flips only
records whose enabled mode is MODE_LAST, and such a record cannot have
support mode NATIVE when it passes tcNativeOK. -/
theorem enableTargets_all_ok (t : Bool) (l : List StreamControl)
    (h : l.all tcNativeOK = true) : ((enableTargets t l).1).all tcNativeOK = true := by
  induction l with
  | nil => simp [enableTargets]
  | cons tc rest ih =>
    simp only [List.all_cons, Bool.and_eq_true] at h
    obtain ⟨h1, h2⟩ := h
    simp only [enableTargets]
    split
    · rename_i hc
      simp only [List.all_cons, Bool.and_eq_true]
      refine ⟨?_, ih h2⟩
      simp only [tcNativeOK, decide_eq_true_eq] at h1 ⊢
      intro hsup
      have := h1 hsup
      rw [this] at hc
      exact absurd hc.1 (by decide)
    · simp only [List.all_cons, Bool.and_eq_true]
      exact ⟨h1, ih h2⟩

/-- The disable loop keeps every target passing tcNativeOK: it flips only
records whose enabled mode is MODE_SYNTHETIC. -/
theorem disableTargets_all_ok (t : Bool) (l : List StreamControl)
    (h : l.all tcNativeOK = true) : ((disableTargets t l).1).all tcNativeOK = true := by
  induction l with
  | nil => simp [disableTargets]
  | cons tc rest ih =>
    simp only [List.all_cons, Bool.and_eq_true] at h
    obtain ⟨h1, h2⟩ := h
    simp only [disableTargets]
    split
    · rename_i hc
      simp only [List.all_cons, Bool.and_eq_true]
      refine ⟨?_, ih h2⟩
      simp only [tcNativeOK, decide_eq_true_eq] at h1 ⊢
      intro hsup
      have := h1 hsup
      rw [this] at hc
      exact absurd hc.1 (by decide)
    · simp only [List.all_cons, Bool.and_eq_true]
      exact ⟨h1, ih h2⟩

/-- The enable lambda preserves procNativeOK. -/
theorem enableVisit_ok (t : Bool) (p : Processor) (h : procNativeOK p = true) :
    procNativeOK (enableVisit t p) = true := by
  unfold enableVisit procNativeOK at *
  split <;> exact enableTargets_all_ok t _ h

/-- The disable lambda preserves procNativeOK. -/
theorem disableVisit_ok (t : Bool) (p : Processor) (h : procNativeOK p = true) :
    procNativeOK (disableVisit t p) = true := by
  unfold disableVisit procNativeOK at *
  split <;> exact disableTargets_all_ok t _ h

/-- Updating one processor with a procNativeOK-preserving function keeps the
invariant. -/
theorem natInv_setProc (s : SynState) (pid : ProcId) (f : Processor → Processor)
    (hf : ∀ p, procNativeOK p = true → procNativeOK (f p) = true)
    (h : natInv s = true) : natInv (setProc s pid f) = true := by
  simp only [natInv, Bool.and_eq_true] at h
  obtain ⟨⟨⟨⟨⟨h1, h2⟩, h3⟩, h4⟩, h5⟩, h6⟩ := h
  cases pid <;>
    simp only [setProc, natInv, Bool.and_eq_true] <;>
    exact ⟨⟨⟨⟨⟨by first | exact hf _ h1 | exact h1,
      by first | exact hf _ h2 | exact h2⟩,
      by first | exact hf _ h3 | exact h3⟩,
      by first | exact hf _ h4 | exact h4⟩,
      by first | exact hf _ h5 | exact h5⟩,
      by first | exact hf _ h6 | exact h6⟩

/-- The enable traversal fold keeps the invariant. -/
theorem natInv_foldl_enable (t : Bool) (L : List ProcId) :
    ∀ s : SynState, natInv s = true → natInv (L.foldl (enableFoldStep t) s) = true := by
  induction L with
  | nil => intro s h; exact h
  | cons q L' ih =>
    intro s h
    exact ih _ (natInv_setProc s q _ (enableVisit_ok t) h)

/-- The disable traversal fold keeps the invariant. -/
theorem natInv_foldl_disable (t : Bool) (L : List ProcId) :
    ∀ s : SynState, natInv s = true → natInv (L.foldl (disableFoldStep t) s) = true := by
  induction L with
  | nil => intro s h; exact h
  | cons q L' ih =>
    intro s h
    exact ih _ (natInv_setProc s q _ (disableVisit_ok t) h)

/-- Every enable or disable call keeps the invariant. -/
theorem natInv_applyOp (s : SynState) (op : Op) (h : natInv s = true) :
    natInv (applyOp s op) = true := by
  cases op with
  | enable st =>
    simp only [applyOp, EnableStreamData]
    cases getProcessorWithStream s st with
    | none => exact h
    | some pid => exact natInv_foldl_enable false (iterateCtoP pid) s h
  | disable st =>
    simp only [applyOp, DisableStreamData]
    cases getProcessorWithStream s st with
    | none => exact h
    | some pid => exact natInv_foldl_disable false (iteratePtoC pid) s h

/-- Every call sequence keeps the invariant. -/
theorem natInv_runOps (ops : List Op) :
    ∀ s : SynState, natInv s = true → natInv (runOps s ops) = true := by
  induction ops with
  | nil => intro s h; exact h
  | cons op rest ih =>
    intro s h
    exact ih _ (natInv_applyOp s op h)

/-- The per-target chain update of InitStreamSupports preserves
tcNativeOK. -/
theorem initSupportsChainTc_ok (dev : Stream → Bool) (st : Stream) (tc : StreamControl)
    (h : tcNativeOK tc = true) : tcNativeOK (initSupportsChainTc dev st tc) = true := by
  unfold initSupportsChainTc
  split
  · split <;> simp [tcNativeOK]
  · exact h

/-- One chain iteration of InitStreamSupports keeps the invariant. -/
theorem natInv_initSupportsChainStep (dev : Stream → Bool) (s : SynState) (st : Stream)
    (h : natInv s = true) : natInv (initSupportsChainStep dev s st) = true := by
  unfold initSupportsChainStep
  cases getProcessorWithStream s st with
  | none => exact h
  | some pid =>
    refine natInv_setProc s pid _ ?_ h
    intro p hp
    simp only [procNativeOK, List.all_map] at hp ⊢
    rw [List.all_eq_true] at hp ⊢
    intro tc htc
    simpa using initSupportsChainTc_ok dev st tc (hp tc htc)

/-- The chain fold of InitStreamSupports keeps the invariant. -/
theorem natInv_chainFold (dev : Stream → Bool) (L : List Stream) :
    ∀ s : SynState, natInv s = true →
      natInv (L.foldl (initSupportsChainStep dev) s) = true := by
  induction L with
  | nil => intro s h; exact h
  | cons st rest ih =>
    intro s h
    exact ih _ (natInv_initSupportsChainStep dev s st h)

/-- The constructor establishes the invariant for every device. -/
theorem natInv_initState (dev : Stream → Bool) : natInv (initState dev) = true := by
  unfold initState InitStreamSupports
  by_cases hLR : dev LEFT && dev RIGHT
  · rw [if_pos hLR]
    exact natInv_chainFold dev stream_chain _ (by decide)
  · rw [if_neg hLR]
    decide

/-- The invariant read back per processor. -/
theorem natInv_getProc (s : SynState) (h : natInv s = true) (pid : ProcId) :
    procNativeOK (getProc s pid) = true := by
  simp only [natInv, Bool.and_eq_true] at h
  obtain ⟨⟨⟨⟨⟨h1, h2⟩, h3⟩, h4⟩, h5⟩, h6⟩ := h
  cases pid <;> assumption

/-- C5: from construction through any sequence of enable and disable calls,
every target whose support mode is NATIVE keeps an enabled mode in NATIVE or
NONE; no call ever sets such a target to SYNTHETIC. -/
theorem C5_native_support_never_synthetic (dev : Stream → Bool) (ops : List Op)
    (pid : ProcId) (tc : StreamControl)
    (hmem : tc ∈ (getProc (runOps (initState dev) ops) pid).target_streams_)
    (hsup : tc.support_mode_ = MODE_NATIVE) :
    tc.enabled_mode_ = MODE_NATIVE ∨ tc.enabled_mode_ = MODE_LAST := by
  have h := natInv_runOps ops (initState dev) (natInv_initState dev)
  have h2 := natInv_getProc _ h pid
  simp only [procNativeOK, List.all_eq_true] at h2
  have h3 := h2 tc hmem
  simp only [tcNativeOK, decide_eq_true_eq] at h3
  exact Or.inl (h3 hsup)

/-- C5 witness: the LEFT record of the root stage after enabling DEPTH on
devLR. -/
theorem C5_witness :
    ({ stream := LEFT, support_mode_ := MODE_NATIVE, enabled_mode_ := MODE_NATIVE,
       stream_callback := none } : StreamControl) ∈
      (getProc (runOps (initState devLR) [Op.enable DEPTH]) ProcId.root).target_streams_ ∧
    (MODE_NATIVE = MODE_NATIVE ∨ MODE_NATIVE = MODE_LAST) :=
  ⟨by decide,
    C5_native_support_never_synthetic devLR [Op.enable DEPTH] ProcId.root
      { stream := LEFT, support_mode_ := MODE_NATIVE, enabled_mode_ := MODE_NATIVE,
        stream_callback := none }
      (by decide) (by decide)⟩

end Synthetic

namespace Synthetic

open Stream Mode

/-- The enable loop never changes which streams a target list mentions. -/
theorem enableTargets_map_stream (t : Bool) (l : List StreamControl) :
    ((enableTargets t l).1).map (fun tc => tc.stream) = l.map (fun tc => tc.stream) := by
  induction l with
  | nil => simp [enableTargets]
  | cons tc rest ih =>
    simp only [enableTargets]
    split <;> simp [ih]

/-- Lists mentioning the same streams agree on the membership test. -/
theorem any_stream_congr {l l' : List StreamControl}
    (h : l'.map (fun tc => tc.stream) = l.map (fun tc => tc.stream)) (st : Stream) :
    (l'.any fun tc => decide (tc.stream = st)) = (l.any fun tc => decide (tc.stream = st)) := by
  induction l' generalizing l with
  | nil =>
    cases l with
    | nil => rfl
    | cons b bs => simp at h
  | cons a as ih =>
    cases l with
    | nil => simp at h
    | cons b bs =>
      simp only [List.map_cons, List.cons.injEq] at h
      obtain ⟨h1, h2⟩ := h
      simp [List.any_cons, h1, ih h2]

/-- The target list produced by the enable lambda. -/
theorem targets_enableVisit (t : Bool) (p : Processor) :
    (enableVisit t p).target_streams_ = (enableTargets t p.target_streams_).1 := by
  unfold enableVisit
  split <;> rfl

/-- The enable lambda does not change the membership test. -/
theorem hasStream_enableVisit (t : Bool) (p : Processor) (st : Stream) :
    hasStream (enableVisit t p) st = hasStream p st := by
  unfold hasStream
  rw [targets_enableVisit]
  exact any_stream_congr (enableTargets_map_stream t _) st

/-- Reading a processor after updating one. -/
theorem getProc_setProc (s : SynState) (pid : ProcId) (f : Processor → Processor)
    (q : ProcId) :
    getProc (setProc s pid f) q = if q = pid then f (getProc s q) else getProc s q := by
  cases pid <;> cases q <;> simp [getProc, setProc]

/-- The enable traversal does not change the membership test anywhere. -/
theorem hasStream_foldl_enable (t : Bool) (L : List ProcId) :
    ∀ (s : SynState) (q : ProcId) (st : Stream),
      hasStream (getProc (L.foldl (enableFoldStep t) s) q) st =
        hasStream (getProc s q) st := by
  induction L with
  | nil => intro s q st; rfl
  | cons q' L' ih =>
    intro s q st
    show hasStream (getProc (L'.foldl (enableFoldStep t) (enableFoldStep t s q')) q) st = _
    rw [ih]
    unfold enableFoldStep
    rw [getProc_setProc]
    split
    · rw [hasStream_enableVisit]
    · rfl

/-- States agreeing on the membership test agree on the processor lookup. -/
theorem lookup_congr (s s' : SynState) (st : Stream)
    (h : ∀ q, hasStream (getProc s' q) st = hasStream (getProc s q) st) :
    getProcessorWithStream s' st = getProcessorWithStream s st := by
  have h1 := h .root
  have h2 := h .rectify
  have h3 := h .disparity
  have h4 := h .dispnorm
  have h5 := h .points
  have h6 := h .depth
  simp only [getProc] at h1 h2 h3 h4 h5 h6
  unfold getProcessorWithStream
  rw [h1, h2, h3, h4, h5, h6]

/-- Reading the enable traversal result: each visited processor went through
the enable lambda exactly once. -/
theorem getProc_foldl_enable (t : Bool) :
    ∀ (L : List ProcId), L.Nodup → ∀ (s : SynState) (q : ProcId),
      getProc (L.foldl (enableFoldStep t) s) q =
        if q ∈ L then enableVisit t (getProc s q) else getProc s q := by
  intro L
  induction L with
  | nil => intro _ s q; simp
  | cons q' L' ih =>
    intro hnd s q
    obtain ⟨hq', hnd'⟩ := List.nodup_cons.mp hnd
    show getProc (L'.foldl (enableFoldStep t) (enableFoldStep t s q')) q = _
    rw [ih hnd']
    unfold enableFoldStep
    rw [getProc_setProc]
    by_cases hq : q ∈ L'
    · have hne : q ≠ q' := fun hh => hq' (hh ▸ hq)
      rw [if_pos hq, if_neg hne, if_pos (List.mem_cons.mpr (Or.inr hq))]
    · rw [if_neg hq]
      by_cases he : q = q'
      · rw [if_pos he, if_pos (List.mem_cons.mpr (Or.inl he))]
      · rw [if_neg he, if_neg (by simp [List.mem_cons, he, hq])]

/-- The enable traversal lists are free of repeats. -/
theorem iterateCtoP_nodup : ∀ pid : ProcId, (iterateCtoP pid).Nodup := by
  decide

/-- Rerunning the non-dry enable loop over an already flipped list changes
nothing and counts nothing. -/
theorem enableTargets_idem (l : List StreamControl) :
    enableTargets false ((enableTargets false l).1) = ((enableTargets false l).1, 0) := by
  induction l with
  | nil => rfl
  | cons tc rest ih =>
    by_cases hc : tc.enabled_mode_ = MODE_LAST
    · have h1 : enableTargets false (tc :: rest) =
          ({ tc with enabled_mode_ := MODE_SYNTHETIC } :: (enableTargets false rest).1,
            (enableTargets false rest).2 + 1) := by
        simp [enableTargets, hc]
      rw [h1]
      have h2 : enableTargets false
          ({ tc with enabled_mode_ := MODE_SYNTHETIC } :: (enableTargets false rest).1) =
          ({ tc with enabled_mode_ := MODE_SYNTHETIC } ::
              (enableTargets false ((enableTargets false rest).1)).1,
            (enableTargets false ((enableTargets false rest).1)).2) := by
        simp [enableTargets]
      rw [h2, ih]
    · have h1 : enableTargets false (tc :: rest) =
          (tc :: (enableTargets false rest).1, (enableTargets false rest).2) := by
        simp [enableTargets, hc]
      rw [h1]
      have h2 : enableTargets false (tc :: (enableTargets false rest).1) =
          (tc :: (enableTargets false ((enableTargets false rest).1)).1,
            (enableTargets false ((enableTargets false rest).1)).2) := by
        simp [enableTargets, hc]
      rw [h2, ih]

/-- The enable lambda is idempotent. -/
theorem enableVisit_idem (p : Processor) :
    enableVisit false (enableVisit false p) = enableVisit false p := by
  by_cases hc : (enableTargets false p.target_streams_).2 > 0 ∧ ¬p.activated
  · unfold enableVisit
    rw [if_pos hc]
    simp [enableTargets_idem]
  · unfold enableVisit
    rw [if_neg hc]
    simp [enableTargets_idem, hc]

/-- States are equal when every processor read agrees. -/
theorem synState_ext {s s' : SynState} (h : ∀ q, getProc s q = getProc s' q) :
    s = s' := by
  cases s
  cases s'
  have h1 := h .root
  have h2 := h .rectify
  have h3 := h .disparity
  have h4 := h .dispnorm
  have h5 := h .points
  have h6 := h .depth
  simp only [getProc] at h1 h2 h3 h4 h5 h6
  subst h1 h2 h3 h4 h5 h6
  rfl

/-- C8: a second non-dry-run EnableStreamData on the same registered stream
changes nothing: all enabled modes, activation flags, callbacks and outputs
are left exactly as after the first call. -/
theorem C8_enable_idempotent (s : SynState) (st : Stream)
    (hreg : (getProcessorWithStream s st).isSome = true) :
    EnableStreamData (EnableStreamData s st false) st false =
      EnableStreamData s st false := by
  obtain ⟨pid, hpid⟩ := Option.isSome_iff_exists.mp hreg
  have e2 : ∀ s0 : SynState, getProcessorWithStream s0 st = some pid →
      EnableStreamData s0 st false = (iterateCtoP pid).foldl (enableFoldStep false) s0 := by
    intro s0 h0
    unfold EnableStreamData
    rw [h0]
  have hlk2 : getProcessorWithStream (EnableStreamData s st false) st = some pid := by
    rw [lookup_congr s (EnableStreamData s st false) st ?_, hpid]
    intro q
    rw [e2 s hpid]
    exact hasStream_foldl_enable false (iterateCtoP pid) s q st
  rw [e2 _ hlk2, e2 s hpid]
  apply synState_ext
  intro q
  rw [getProc_foldl_enable false (iterateCtoP pid) (iterateCtoP_nodup pid),
    getProc_foldl_enable false (iterateCtoP pid) (iterateCtoP_nodup pid)]
  by_cases hq : q ∈ iterateCtoP pid
  · rw [if_pos hq, if_pos hq]
    exact enableVisit_idem (getProc s q)
  · rw [if_neg hq, if_neg hq]

/-- C8 witness: enabling DEPTH twice on the constructed devLR pipeline. -/
theorem C8_witness :
    (getProcessorWithStream (initState devLR) DEPTH).isSome = true ∧
    EnableStreamData (EnableStreamData (initState devLR) DEPTH false) DEPTH false =
      EnableStreamData (initState devLR) DEPTH false :=
  ⟨by decide, C8_enable_idempotent (initState devLR) DEPTH (by decide)⟩

end Synthetic

namespace Synthetic

open Stream Mode

/-- The callback setter never changes which streams a target list
mentions. -/
theorem setCBInProc_map_stream (l : List StreamControl) (st : Stream) (cb : Option Nat) :
    (setCBInProc l st cb).map (fun tc => tc.stream) = l.map (fun tc => tc.stream) := by
  induction l with
  | nil => rfl
  | cons tc rest ih =>
    unfold setCBInProc
    split <;> simp [ih]

/-- The membership test and the lookup agree about existence. -/
theorem lookup_isSome_eq_check (s : SynState) (st : Stream) :
    (getProcessorWithStream s st).isSome = checkControlDateWithStream s st := by
  unfold getProcessorWithStream checkControlDateWithStream
  by_cases h1 : hasStream s.root_proc st <;>
    by_cases h2 : hasStream s.rectify_proc st <;>
    by_cases h3 : hasStream s.disparity_proc st <;>
    by_cases h4 : hasStream s.dispnorm_proc st <;>
    by_cases h5 : hasStream s.points_proc st <;>
    by_cases h6 : hasStream s.depth_proc st <;>
    simp [h1, h2, h3, h4, h5, h6]

/-- States agreeing on the membership test agree on
checkControlDateWithStream. -/
theorem check_congr (s s' : SynState) (st : Stream)
    (h : ∀ q, hasStream (getProc s' q) st = hasStream (getProc s q) st) :
    checkControlDateWithStream s' st = checkControlDateWithStream s st := by
  have h1 := h .root
  have h2 := h .rectify
  have h3 := h .disparity
  have h4 := h .dispnorm
  have h5 := h .points
  have h6 := h .depth
  simp only [getProc] at h1 h2 h3 h4 h5 h6
  unfold checkControlDateWithStream
  rw [h1, h2, h3, h4, h5, h6]

/-- A successful lookup really holds the stream. -/
theorem lookup_some_hasStream (s : SynState) (st : Stream) (pid : ProcId)
    (h : getProcessorWithStream s st = some pid) :
    hasStream (getProc s pid) st = true := by
  unfold getProcessorWithStream at h
  by_cases h1 : hasStream s.root_proc st
  · rw [if_pos h1] at h
    obtain rfl : ProcId.root = pid := by injection h
    exact h1
  · rw [if_neg h1] at h
    by_cases h2 : hasStream s.rectify_proc st
    · rw [if_pos h2] at h
      obtain rfl : ProcId.rectify = pid := by injection h
      exact h2
    · rw [if_neg h2] at h
      by_cases h3 : hasStream s.disparity_proc st
      · rw [if_pos h3] at h
        obtain rfl : ProcId.disparity = pid := by injection h
        exact h3
      · rw [if_neg h3] at h
        by_cases h4 : hasStream s.dispnorm_proc st
        · rw [if_pos h4] at h
          obtain rfl : ProcId.dispnorm = pid := by injection h
          exact h4
        · rw [if_neg h4] at h
          by_cases h5 : hasStream s.points_proc st
          · rw [if_pos h5] at h
            obtain rfl : ProcId.points = pid := by injection h
            exact h5
          · rw [if_neg h5] at h
            by_cases h6 : hasStream s.depth_proc st
            · rw [if_pos h6] at h
              obtain rfl : ProcId.depth = pid := by injection h
              exact h6
            · rw [if_neg h6] at h
              exact Option.noConfusion h

/-- After setting the callback of the first matching record to null, the
first matching record carries a null callback. -/
theorem find_setCB_none (l : List StreamControl) (st : Stream)
    (h : (l.any fun tc => decide (tc.stream = st)) = true) :
    ∃ tc, ((setCBInProc l st none).find? fun tc => decide (tc.stream = st)) = some tc ∧
      tc.stream_callback = none := by
  induction l with
  | nil => simp at h
  | cons hd tl ih =>
    by_cases hhd : hd.stream = st
    · refine ⟨{ hd with stream_callback := none }, ?_, rfl⟩
      unfold setCBInProc
      rw [if_pos hhd]
      rw [List.find?_cons_of_pos]
      simpa using hhd
    · unfold setCBInProc
      rw [if_neg hhd]
      simp only [List.any_cons, Bool.or_eq_true, decide_eq_true_eq] at h
      obtain h | h := h
      · exact absurd h hhd
      · obtain ⟨tc, hf, hcb⟩ := ih h
        refine ⟨tc, ?_, hcb⟩
        rw [List.find?_cons_of_neg]
        · exact hf
        · simpa using hhd

/-- Setting a callback through the registry does not change the membership
test anywhere. -/
theorem hasStream_setCBProc (s0 : SynState) (pid : ProcId) (st : Stream)
    (cb : Option Nat) (q : ProcId) :
    hasStream (getProc (setProc s0 pid (fun p =>
        { p with target_streams_ := setCBInProc p.target_streams_ st cb })) q) st =
      hasStream (getProc s0 q) st := by
  rw [getProc_setProc]
  split
  · exact any_stream_congr (setCBInProc_map_stream _ st cb) st
  · rfl

/-- C9: setting a stream callback and then clearing it leaves the stream
without a callback. -/
theorem C9_callback_roundtrip (s : SynState) (st : Stream) (f : Nat)
    (hreg : checkControlDateWithStream s st = true) :
    HasStreamCallback (SetStreamCallback (SetStreamCallback s st (some f)) st none) st =
      false := by
  have hik : (getProcessorWithStream s st).isSome = true := by
    rw [lookup_isSome_eq_check]
    exact hreg
  obtain ⟨pid, hpid⟩ := Option.isSome_iff_exists.mp hik
  have e1 : ∀ (s0 : SynState) (cb : Option Nat), getProcessorWithStream s0 st = some pid →
      SetStreamCallback s0 st cb = setProc s0 pid (fun p =>
        { p with target_streams_ := setCBInProc p.target_streams_ st cb }) := by
    intro s0 cb h0
    unfold SetStreamCallback setControlDateCallbackWithStream
    rw [h0]
  have hlk1 : getProcessorWithStream (SetStreamCallback s st (some f)) st = some pid := by
    rw [e1 s (some f) hpid,
      lookup_congr s (setProc s pid (fun p =>
        { p with target_streams_ := setCBInProc p.target_streams_ st (some f) })) st
        (hasStream_setCBProc s pid st (some f))]
    exact hpid
  have e2 : SetStreamCallback (SetStreamCallback s st (some f)) st none =
      setProc (SetStreamCallback s st (some f)) pid (fun p =>
        { p with target_streams_ := setCBInProc p.target_streams_ st none }) :=
    e1 _ none hlk1
  have hchk1 : checkControlDateWithStream (SetStreamCallback s st (some f)) st = true := by
    rw [e1 s (some f) hpid,
      check_congr s (setProc s pid (fun p =>
        { p with target_streams_ := setCBInProc p.target_streams_ st (some f) })) st
        (hasStream_setCBProc s pid st (some f))]
    exact hreg
  have hchk2 : checkControlDateWithStream
      (SetStreamCallback (SetStreamCallback s st (some f)) st none) st = true := by
    rw [e2,
      check_congr (SetStreamCallback s st (some f)) _ st
        (hasStream_setCBProc (SetStreamCallback s st (some f)) pid st none)]
    exact hchk1
  have hlk2 : getProcessorWithStream
      (SetStreamCallback (SetStreamCallback s st (some f)) st none) st = some pid := by
    rw [e2,
      lookup_congr (SetStreamCallback s st (some f)) _ st
        (hasStream_setCBProc (SetStreamCallback s st (some f)) pid st none)]
    exact hlk1
  have hany : hasStream (getProc (SetStreamCallback s st (some f)) pid) st = true :=
    lookup_some_hasStream _ st pid hlk1
  obtain ⟨tc, hfind, hcb⟩ :=
    find_setCB_none (getProc (SetStreamCallback s st (some f)) pid).target_streams_ st hany
  have hctl : getControlDateWithStream
      (SetStreamCallback (SetStreamCallback s st (some f)) st none) st =
      (findInProc (getProc (SetStreamCallback (SetStreamCallback s st (some f)) st none)
        pid) st).getD defaultStreamControl := by
    unfold getControlDateWithStream
    rw [hlk2]
  unfold HasStreamCallback
  rw [hchk2, hctl, e2, getProc_setProc]
  unfold findInProc
  simp [hfind, hcb]

/-- C9 witness: set then clear a callback on DISPARITY of the constructed
devLR pipeline. -/
theorem C9_witness :
    checkControlDateWithStream (initState devLR) DISPARITY = true ∧
    HasStreamCallback
      (SetStreamCallback (SetStreamCallback (initState devLR) DISPARITY (some 5))
        DISPARITY none) DISPARITY = false :=
  ⟨by decide, C9_callback_roundtrip (initState devLR) DISPARITY 5 (by decide)⟩

end Synthetic
